import Mathlib

/-!
Shallow embedding of the registration form in
`src/src/Pages/Register/Register.jsx`: the zod field schema and its
validator, the keystroke filters for name-class and numeric-class fields,
the uncancelled 2-second transient-error timers, and the submission flow.
-/

namespace Register

/-- JavaScript values as far as the `acceptTerms` checkbox and the
`z.literal(true)` rule can observe them. -/
inductive JsValue
  | bool (b : Bool)
  | str (s : String)
  | num (n : Int)
  | null
  | undef
deriving DecidableEq

/-- The registration record, one field per key of the zod `schema`
(lines 8-44 of `Register.jsx`).  All fields are form text/select strings
except `acceptTerms`, which carries the raw checkbox value. -/
structure RegistrationRecord where
  title : String
  firstName : String
  lastName : String
  position : String
  company : String
  businessArena : String
  employees : String
  street : String
  additionalInfo : String
  zipCode : String
  place : String
  country : String
  code : String
  phoneNumber : String
  email : String
  acceptTerms : JsValue
deriving DecidableEq

/-- JS `\s` whitespace class, restricted to the ASCII characters that can
occur in the form (the regex `^[A-Za-z\s]+$`). -/
def jsWhitespace (c : Char) : Bool :=
  c == ' ' || c == '\t' || c == '\n' || c == '\r' || c == '\x0b' || c == '\x0c'

/-- The regex `^[A-Za-z\s]+$` used for `firstName`/`lastName`. -/
def matchesLettersSpaces (s : String) : Bool :=
  (s.length != 0) && s.data.all fun c => c.isAlpha || jsWhitespace c

/-- The regex `^\d+$` used for `zipCode`, `code` and `phoneNumber`. -/
def matchesDigitsOnly (s : String) : Bool :=
  (s.length != 0) && s.data.all Char.isDigit

/-- zod's `.min(n, msg)` check on a string. -/
def zMin (n : Nat) (msg : String) (s : String) : Option String :=
  if s.length < n then some msg else none

/-- zod's `.max(n, msg)` check on a string. -/
def zMax (n : Nat) (msg : String) (s : String) : Option String :=
  if n < s.length then some msg else none

/-- zod's `.regex(re, msg)` check on a string. -/
def zRegex (p : String → Bool) (msg : String) (s : String) : Option String :=
  if p s then none else some msg

/-- Chain zod checks: the reported error for a field is the message of the
first failing check of its chain (what `errors.field.message` shows). -/
def firstFailure (checks : List (String → Option String)) (s : String) : Option String :=
  match checks with
  | [] => none
  | c :: rest =>
    match c s with
    | some m => some m
    | none => firstFailure rest s

/-- `title: z.string().min(1, "Title is required")`. -/
def validateTitle (s : String) : Option String :=
  firstFailure [zMin 1 "Title is required"] s

/-- `firstName: z.string().min(1, ...).regex(/^[A-Za-z\s]+$/, ...)`. -/
def validateFirstName (s : String) : Option String :=
  firstFailure
    [zMin 1 "First name is required",
     zRegex matchesLettersSpaces "Only letters are allowed"] s

/-- `lastName: z.string().min(1, ...).regex(/^[A-Za-z\s]+$/, ...)`. -/
def validateLastName (s : String) : Option String :=
  firstFailure
    [zMin 1 "Last name is required",
     zRegex matchesLettersSpaces "Only letters are allowed"] s

/-- `position: z.string().min(1, "Position is required")`. -/
def validatePosition (s : String) : Option String :=
  firstFailure [zMin 1 "Position is required"] s

/-- `company: z.string().min(1, "Company is required")`. -/
def validateCompany (s : String) : Option String :=
  firstFailure [zMin 1 "Company is required"] s

/-- `businessArena: z.string().min(1, "Business Arena is required")`. -/
def validateBusinessArena (s : String) : Option String :=
  firstFailure [zMin 1 "Business Arena is required"] s

/-- `employees: z.string().min(1, "Number of employees is required")`. -/
def validateEmployees (s : String) : Option String :=
  firstFailure [zMin 1 "Number of employees is required"] s

/-- `street: z.string().min(1, "Street is required")`. -/
def validateStreet (s : String) : Option String :=
  firstFailure [zMin 1 "Street is required"] s

/-- `zipCode: z.string().min(1, ...).regex(/^\d+$/, ...)`. -/
def validateZipCode (s : String) : Option String :=
  firstFailure
    [zMin 1 "Zip code is required",
     zRegex matchesDigitsOnly "Only numbers are allowed"] s

/-- `place: z.string().min(1, "Place is required")`. -/
def validatePlace (s : String) : Option String :=
  firstFailure [zMin 1 "Place is required"] s

/-- `country: z.string().min(1, "Country is required")`. -/
def validateCountry (s : String) : Option String :=
  firstFailure [zMin 1 "Country is required"] s

/-- `code: z.string().min(1, ...).regex(/^\d+$/, ...)`. -/
def validateCode (s : String) : Option String :=
  firstFailure
    [zMin 1 "Code is required",
     zRegex matchesDigitsOnly "Only numbers are allowed"] s

/-- `phoneNumber: z.string().min(1, ...).regex(/^\d+$/, ...).min(10, ...).max(15, ...)`. -/
def validatePhoneNumber (s : String) : Option String :=
  firstFailure
    [zMin 1 "Phone number is required",
     zRegex matchesDigitsOnly "Only numbers are allowed",
     zMin 10 "Phone number must be at least 10 digits",
     zMax 15 "Phone number must not exceed 15 digits"] s

/-- Split a character list at every occurrence of `c` (the separators are
dropped; an empty list yields one empty chunk). -/
def splitAtChar (c : Char) : List Char → List (List Char)
  | [] => [[]]
  | x :: xs =>
    match splitAtChar c xs with
    | [] => if x = c then [[], []] else [[x]]
    | y :: ys => if x = c then [] :: y :: ys else (x :: y) :: ys

/-- Modelled from the spec: the source's `z.string().email(...)` delegates
"valid email syntax" to the schema library, whose implementation is not
under `src/`; modelled as a single `@` separating a non-empty local part
from a domain that contains a dot neither at its start nor at its end. -/
def isValidEmail (s : String) : Bool :=
  match splitAtChar '@' s.data with
  | [lp, dom] =>
    !lp.isEmpty && !dom.isEmpty && dom.contains '.' &&
    !(dom.head? == some '.') && !(dom.getLast? == some '.')
  | _ => false

/-- `email: z.string().min(1, ...).email("Invalid email format")`. -/
def validateEmail (s : String) : Option String :=
  firstFailure
    [zMin 1 "Email is required",
     zRegex isValidEmail "Invalid email format"] s

/-- `acceptTerms: z.literal(true, { errorMap: ... })`: valid exactly when the
value is strictly the boolean `true`. -/
def validateAcceptTerms (v : JsValue) : Option String :=
  if v = JsValue.bool true then none else some "You must accept the terms"

/-- The keys of the zod `schema` object, in declaration order. -/
def fieldNames : List String :=
  ["title", "firstName", "lastName", "position", "company", "businessArena",
   "employees", "street", "additionalInfo", "zipCode", "place", "country",
   "code", "phoneNumber", "email", "acceptTerms"]

/-- The error the validator reports for one field of a record (the first
failing check of that field's zod chain), `none` when the field passes.
`additionalInfo` is `z.string().optional()` and always passes. -/
def fieldError (r : RegistrationRecord) (f : String) : Option String :=
  match f with
  | "title" => validateTitle r.title
  | "firstName" => validateFirstName r.firstName
  | "lastName" => validateLastName r.lastName
  | "position" => validatePosition r.position
  | "company" => validateCompany r.company
  | "businessArena" => validateBusinessArena r.businessArena
  | "employees" => validateEmployees r.employees
  | "street" => validateStreet r.street
  | "additionalInfo" => none
  | "zipCode" => validateZipCode r.zipCode
  | "place" => validatePlace r.place
  | "country" => validateCountry r.country
  | "code" => validateCode r.code
  | "phoneNumber" => validatePhoneNumber r.phoneNumber
  | "email" => validateEmail r.email
  | "acceptTerms" => validateAcceptTerms r.acceptTerms
  | _ => none

/-- The projection of a record onto one schema field, used to state that a
field is judged independently of the other fields. -/
def fieldProj (f : String) (r : RegistrationRecord) : JsValue :=
  match f with
  | "title" => JsValue.str r.title
  | "firstName" => JsValue.str r.firstName
  | "lastName" => JsValue.str r.lastName
  | "position" => JsValue.str r.position
  | "company" => JsValue.str r.company
  | "businessArena" => JsValue.str r.businessArena
  | "employees" => JsValue.str r.employees
  | "street" => JsValue.str r.street
  | "additionalInfo" => JsValue.str r.additionalInfo
  | "zipCode" => JsValue.str r.zipCode
  | "place" => JsValue.str r.place
  | "country" => JsValue.str r.country
  | "code" => JsValue.str r.code
  | "phoneNumber" => JsValue.str r.phoneNumber
  | "email" => JsValue.str r.email
  | "acceptTerms" => r.acceptTerms
  | _ => JsValue.undef

/-- The validator's output: the mapping from field name to error message,
holding an entry for exactly the fields whose zod chain fails. -/
def validateRecord (r : RegistrationRecord) : List (String × String) :=
  fieldNames.filterMap fun f => (fieldError r f).map fun m => (f, m)

/-- The record passes form-level validation (submit runs `onSubmit` rather
than `onError`) iff the validator reports no error at all. -/
def isSubmittable (r : RegistrationRecord) : Bool :=
  (validateRecord r).isEmpty

/-- The `defaultValues` of the `useForm` call: all-empty strings and an
unchecked checkbox. -/
def defaultRecord : RegistrationRecord :=
  ⟨"", "", "", "", "", "", "", "", "", "", "", "", "", "", "", JsValue.bool false⟩

/-- The valid sample record of the spec's end-to-end scenario 1. -/
def validRecord : RegistrationRecord :=
  ⟨"mr", "John", "Doe", "developer", "Acme", "Tech", "1-10", "1 Main St", "",
   "12345", "colombo", "us", "94", "0771234567", "john@acme.com", JsValue.bool true⟩


/-- JS `/[0-9]/.test(key)`: the key string contains a digit character. -/
def testDigit (key : String) : Bool :=
  key.data.any Char.isDigit

/-- The `e.key` strings of the ten digit keys. -/
def digitKeys : List String :=
  ["0", "1", "2", "3", "4", "5", "6", "7", "8", "9"]

/-- `handleNameInput` (lines 85-100): on a keypress for `firstName` or
`lastName`, a key matching `/[0-9]/` is suppressed (`preventDefault`) and
the field's transient error is set to the returned message; any other key
is let through (`none`). -/
def handleNameInput (key : String) : Option String :=
  if testDigit key then some "Numbers are not allowed in this field" else none

/-- `handleNumericInput` (lines 102-140): on a keydown for `zipCode`,
`code` or `phoneNumber`, a key not matching `/[0-9]/` and distinct from
Backspace/Delete/Tab is suppressed with the "Only numbers" message;
otherwise a key matching `/[0-9]/` is suppressed with the "Maximum 10
digits" message when the field's current value already has length ≥ 10;
any other key is let through (`none`). -/
def handleNumericInput (key : String) (currentValue : String) : Option String :=
  if ¬testDigit key ∧ key ≠ "Backspace" ∧ key ≠ "Delete" ∧ key ≠ "Tab" then
    some "Only numbers are allowed in this field"
  else if testDigit key ∧ 10 ≤ currentValue.length then
    some "Maximum 10 digits allowed"
  else none

/-- One keypress of character `c` on a name-class field: when
`handleNameInput` suppresses the key the value is unchanged, otherwise the
character is inserted. -/
def nameTypeStep (v : String) (c : Char) : String :=
  match handleNameInput (String.singleton c) with
  | some _ => v
  | none => v.push c

/-- Typing a character sequence into an initially empty name-class field,
one keypress at a time. -/
def nameTypeAll (cs : List Char) : String :=
  cs.foldl nameTypeStep ""

/-- State of one transient-error mapping (`nameErrors` or `numericErrors`):
the current message per field name, plus the pending uncancelled
`setTimeout` clears as (fire time, field) pairs. -/
structure FilterState where
  errors : String → String
  pending : List (Nat × String)

/-- Overwrite one field's entry of a transient-error mapping
(`setXxxErrors(prev => ({ ...prev, [fieldName]: msg }))`). -/
def setEntry (σ : String → String) (f m : String) : String → String :=
  fun g => if g = f then m else σ g

/-- The mapping before any keystroke rejection: every field maps to `""`
and no clear is pending. -/
def initFilterState : FilterState :=
  ⟨fun _ => "", []⟩

/-- Advance the wall clock to time `t`: every pending `setTimeout` clear
whose fire time has been reached resets its own field's entry to `""` and
leaves the pending queue. -/
def fireDue (t : Nat) (s : FilterState) : FilterState :=
  ⟨fun g => if ∃ p ∈ s.pending, p.1 ≤ t ∧ p.2 = g then "" else s.errors g,
   s.pending.filter fun p => decide (t < p.1)⟩

/-- A keystroke rejection at time `e.1` on field `e.2.1` with message
`e.2.2`: timers due by then have fired, the field's entry is overwritten
with the message, and a fresh clear is scheduled 2000 ms later — the
handlers never cancel an earlier timer. -/
def applyReject (s : FilterState) (e : Nat × String × String) : FilterState :=
  ⟨setEntry (fireDue e.1 s).errors e.2.1 e.2.2,
   (fireDue e.1 s).pending ++ [(e.1 + 2000, e.2.1)]⟩

/-- Run a time-ordered list of keystroke rejections from the initial
mapping. -/
def runRejects (evts : List (Nat × String × String)) : FilterState :=
  evts.foldl applyReject initFilterState

/-- The message a transient-error mapping shows for field `g` at time `t`,
after the rejections `evts` (all at times ≤ `t`) and every timer due by
`t` have been processed. -/
def errorAt (evts : List (Nat × String × String)) (t : Nat) (g : String) : String :=
  (fireDue t (runRejects evts)).errors g


/-- The user-visible outcome of one submit: which dialog is shown
(`Swal.fire` icon and text), whether the simulated asynchronous operation
ran, and the record left behind. -/
structure SubmitEffects where
  dialogIcon : String
  dialogText : String
  ranAsync : Bool
  finalRecord : RegistrationRecord
deriving DecidableEq

/-- `handleSubmit(onSubmit, onError)` on record `r`: an invalid record goes
to `onError` (lines 165-173) — one aggregate warning dialog, no async work,
record untouched; a valid record goes to `onSubmit` (lines 141-163) — the
simulated delay runs, then either the success dialog is shown and the
record is `reset()` to the defaults, or (`catch`) the error dialog is shown
and the record is kept. -/
def submitFlow (r : RegistrationRecord) (simOutcome : Except Unit Unit) : SubmitEffects :=
  if isSubmittable r then
    match simOutcome with
    | Except.ok _ =>
      ⟨"success", "Registration completed successfully", true, defaultRecord⟩
    | Except.error _ =>
      ⟨"error", "Something went wrong. Please try again.", true, r⟩
  else
    ⟨"warning", "Please check all required fields", false, r⟩


/-- Claim C3: phoneNumber final validation passes exactly the digit-only
strings of length in [10,15], and when several constraints fail only the
first failing one's message is reported, in the order: empty check, then
digits-only pattern, then the length bounds. -/
theorem phoneNumber_first_failure_priority (s : String) :
    (validatePhoneNumber s = none ↔
      (s.data.all Char.isDigit = true ∧ 10 ≤ s.length ∧ s.length ≤ 15))
    ∧ (s.length = 0 → validatePhoneNumber s = some "Phone number is required")
    ∧ (s.length ≠ 0 → matchesDigitsOnly s = false →
        validatePhoneNumber s = some "Only numbers are allowed")
    ∧ (matchesDigitsOnly s = true → s.length < 10 →
        validatePhoneNumber s = some "Phone number must be at least 10 digits")
    ∧ (matchesDigitsOnly s = true → 15 < s.length →
        validatePhoneNumber s = some "Phone number must not exceed 15 digits") := by
  simp only [validatePhoneNumber, firstFailure, zMin, zMax, zRegex, matchesDigitsOnly]
  split_ifs with h1 h2 h3 h4 <;> simp_all <;> omega

/-- Witness for C3 at the concrete inputs of the spec scenarios. -/
theorem phoneNumber_first_failure_priority_witness :
    validatePhoneNumber "0771234567" = none
    ∧ validatePhoneNumber "077123456" = some "Phone number must be at least 10 digits"
    ∧ validatePhoneNumber "0771234567890123" = some "Phone number must not exceed 15 digits"
    ∧ validatePhoneNumber "" = some "Phone number is required"
    ∧ validatePhoneNumber "077-1234" = some "Only numbers are allowed" := by
  refine ⟨?_, ?_, ?_, ?_, ?_⟩
  · exact (phoneNumber_first_failure_priority "0771234567").1.mpr (by decide)
  · exact (phoneNumber_first_failure_priority "077123456").2.2.2.1 (by decide) (by decide)
  · exact (phoneNumber_first_failure_priority "0771234567890123").2.2.2.2 (by decide) (by decide)
  · exact (phoneNumber_first_failure_priority "").2.1 (by decide)
  · exact (phoneNumber_first_failure_priority "077-1234").2.2.1 (by decide) (by decide)

/-- Claim C6: acceptTerms validates successfully iff its value is strictly
the boolean `true`; every other value fails with the fixed message. -/
theorem acceptTerms_strict_true (v : JsValue) :
    (validateAcceptTerms v = none ↔ v = JsValue.bool true)
    ∧ (v ≠ JsValue.bool true →
        validateAcceptTerms v = some "You must accept the terms") := by
  unfold validateAcceptTerms
  by_cases h : v = JsValue.bool true <;> simp [h]

/-- Witness for C6 at a non-boolean truthy value. -/
theorem acceptTerms_strict_true_witness :
    validateAcceptTerms (JsValue.str "yes") = some "You must accept the terms" :=
  (acceptTerms_strict_true (JsValue.str "yes")).2 (by decide)

/-- Claim C10: the numeric filter's 10 cap is judged on the length of the
whole current value string, whatever characters it contains: a key
matching `/[0-9]/` is rejected with the cap message exactly when the
current value's length is at least 10. -/
theorem numeric_cap_uses_value_length (key value : String)
    (h : testDigit key = true) :
    handleNumericInput key value = some "Maximum 10 digits allowed" ↔
      10 ≤ value.length := by
  unfold handleNumericInput
  by_cases hl : 10 ≤ value.length <;> simp [h, hl]

/-- Witness for C10: a digit key on a 10-character value made of
non-digits is still capped. -/
theorem numeric_cap_uses_value_length_witness :
    testDigit "5" = true
    ∧ handleNumericInput "5" "abcdefghij" = some "Maximum 10 digits allowed" :=
  ⟨by decide, (numeric_cap_uses_value_length "5" "abcdefghij" (by decide)).mpr (by decide)⟩

/-- Counterexample to C2 as stated: the key "F1" is neither a digit key
nor Backspace/Delete/Tab, yet `handleNumericInput` does not suppress it
(its `/[0-9]/` test sees the digit in the key name "F1"). -/
theorem numeric_filter_key_class_counterexample :
    "F1" ∉ digitKeys ∧ "F1" ≠ "Backspace" ∧ "F1" ≠ "Delete" ∧ "F1" ≠ "Tab"
    ∧ handleNumericInput "F1" "" = none := by
  decide

/-- Claim C2 (amended): for numeric-class fields, a key whose string
contains no digit character and is not Backspace/Delete/Tab is suppressed
with the "Only numbers" message; a key whose string contains a digit is
suppressed with the "Maximum 10 digits" message when the current value's
length is ≥ 10; and this 10 cap is independent of the final phoneNumber
rule, which accepts digit strings up to length 15. -/
theorem numeric_filter_amended (key value s : String) :
    (testDigit key = false → key ≠ "Backspace" → key ≠ "Delete" → key ≠ "Tab" →
      handleNumericInput key value = some "Only numbers are allowed in this field")
    ∧ (testDigit key = true → 10 ≤ value.length →
      handleNumericInput key value = some "Maximum 10 digits allowed")
    ∧ (matchesDigitsOnly s = true → 10 ≤ s.length → s.length ≤ 15 →
      validatePhoneNumber s = none) := by
  refine ⟨?_, ?_, ?_⟩
  · intro ht hb hd htab
    unfold handleNumericInput
    simp [ht, hb, hd, htab]
  · intro ht hl
    unfold handleNumericInput
    simp [ht, hl]
  · intro hm h10 h15
    have := (phoneNumber_first_failure_priority s).1
    unfold matchesDigitsOnly at hm
    simp at hm
    refine this.mpr ⟨?_, h10, h15⟩
    simpa using hm.2

/-- Witness for C2 (amended) at concrete keystrokes, including a 12-digit
phone number accepted by the final validation despite the 10 cap. -/
theorem numeric_filter_amended_witness :
    handleNumericInput "x" "" = some "Only numbers are allowed in this field"
    ∧ handleNumericInput "5" "0123456789" = some "Maximum 10 digits allowed"
    ∧ validatePhoneNumber "077123456789" = none := by
  refine ⟨?_, ?_, ?_⟩
  · exact (numeric_filter_amended "x" "" "").1 (by decide) (by decide) (by decide) (by decide)
  · exact (numeric_filter_amended "5" "0123456789" "").2.1 (by decide) (by decide)
  · exact (numeric_filter_amended "" "" "077123456789").2.2 (by decide) (by decide) (by decide)

/-- Claim C7: on a record that passes validation the simulated operation
runs; on completion the success dialog is shown and the record is reset to
the defaults, while on a raised error the error dialog is shown and the
record is left untouched. -/
theorem submit_valid_success_resets (r : RegistrationRecord)
    (h : isSubmittable r = true) :
    submitFlow r (Except.ok ()) =
      ⟨"success", "Registration completed successfully", true, defaultRecord⟩
    ∧ submitFlow r (Except.error ()) =
      ⟨"error", "Something went wrong. Please try again.", true, r⟩ := by
  unfold submitFlow
  simp [h]

/-- Witness for C7 at the spec's valid sample record. -/
theorem submit_valid_success_resets_witness :
    submitFlow validRecord (Except.ok ()) =
      ⟨"success", "Registration completed successfully", true, defaultRecord⟩
    ∧ submitFlow validRecord (Except.error ()) =
      ⟨"error", "Something went wrong. Please try again.", true, validRecord⟩ :=
  submit_valid_success_resets validRecord (by decide)

/-- Claim C8: submitting a record with at least one invalid field performs
no asynchronous work, shows the single aggregate warning dialog, and
leaves the record unchanged and unsubmitted. -/
theorem submit_invalid_single_warning (r : RegistrationRecord)
    (simOutcome : Except Unit Unit) (h : isSubmittable r = false) :
    submitFlow r simOutcome =
      ⟨"warning", "Please check all required fields", false, r⟩ := by
  unfold submitFlow
  simp [h]

/-- Witness for C8 at the all-defaults (all-empty) record. -/
theorem submit_invalid_single_warning_witness :
    submitFlow defaultRecord (Except.ok ()) =
      ⟨"warning", "Please check all required fields", false, defaultRecord⟩ :=
  submit_invalid_single_warning defaultRecord (Except.ok ()) (by decide)

/-- A name that is not a schema field has no validator entry. -/
theorem fieldError_eq_none_of_not_mem (r : RegistrationRecord) (f : String)
    (h : f ∉ fieldNames) : fieldError r f = none := by
  simp only [fieldNames, List.mem_cons, List.not_mem_nil, or_false] at h
  push_neg at h
  unfold fieldError
  split <;> simp_all

/-- Claim C1: the validator's mapping has an entry for exactly the fields
whose rule fails (passing fields are absent), each field's verdict depends
only on that field's own value, and the record is submittable iff every
field passes simultaneously. -/
theorem validator_exact_independent_conjunctive
    (r r' : RegistrationRecord) (f m : String) :
    ((f, m) ∈ validateRecord r ↔ fieldError r f = some m)
    ∧ (fieldProj f r = fieldProj f r' → fieldError r f = fieldError r' f)
    ∧ (isSubmittable r = true ↔ ∀ g ∈ fieldNames, fieldError r g = none) := by
  refine ⟨⟨?_, ?_⟩, ?_, ?_⟩
  · intro hm
    simp only [validateRecord, List.mem_filterMap] at hm
    obtain ⟨a, _, ha⟩ := hm
    rw [Option.map_eq_some'] at ha
    obtain ⟨m', hm', heq⟩ := ha
    obtain ⟨rfl, rfl⟩ := Prod.mk.injEq .. ▸ heq
    exact hm'
  · intro hf
    by_cases hmem : f ∈ fieldNames
    · simp only [validateRecord, List.mem_filterMap]
      exact ⟨f, hmem, by simp [hf]⟩
    · rw [fieldError_eq_none_of_not_mem r f hmem] at hf
      cases hf
  · intro hp
    by_cases hmem : f ∈ fieldNames
    · simp only [fieldNames, List.mem_cons, List.not_mem_nil, or_false] at hmem
      rcases hmem with rfl | rfl | rfl | rfl | rfl | rfl | rfl | rfl | rfl |
        rfl | rfl | rfl | rfl | rfl | rfl | rfl <;>
        simp only [fieldProj, JsValue.str.injEq] at hp <;>
        simp [fieldError, hp]
    · rw [fieldError_eq_none_of_not_mem r f hmem,
        fieldError_eq_none_of_not_mem r' f hmem]
  · simp only [isSubmittable, validateRecord, List.isEmpty_iff,
      List.filterMap_eq_nil_iff, Option.map_eq_none']

/-- Witness for C1 at the all-empty record and the `title` field. -/
theorem validator_exact_independent_conjunctive_witness :
    (("title", "Title is required") ∈ validateRecord defaultRecord ↔
      fieldError defaultRecord "title" = some "Title is required")
    ∧ fieldError defaultRecord "title" = fieldError defaultRecord "title"
    ∧ (isSubmittable defaultRecord = true ↔
        ∀ g ∈ fieldNames, fieldError defaultRecord g = none) :=
  ⟨(validator_exact_independent_conjunctive defaultRecord defaultRecord
      "title" "Title is required").1,
   (validator_exact_independent_conjunctive defaultRecord defaultRecord
      "title" "Title is required").2.1 rfl,
   (validator_exact_independent_conjunctive defaultRecord defaultRecord
      "title" "Title is required").2.2⟩

/-- Appending one character to a string appends it to its character list. -/
theorem data_push (v : String) (c : Char) : (v.push c).data = v.data ++ [c] := by
  cases v
  rfl

/-- Typing through the name-class filter preserves digit-freedom of the
stored value. -/
theorem nameType_digit_free_aux (cs : List Char) (v : String)
    (hv : (v.data.all fun d => !d.isDigit) = true) :
    ((cs.foldl nameTypeStep v).data.all fun d => !d.isDigit) = true := by
  induction cs generalizing v with
  | nil => exact hv
  | cons c cs ih =>
    simp only [List.foldl_cons]
    apply ih
    unfold nameTypeStep handleNameInput testDigit
    by_cases hc : c.isDigit
    · simp [String.singleton, hc, hv]
    · simp [String.singleton, hc, data_push, hv]

/-- Claim C5: a digit keypress on a name-class field is suppressed (the
value is unchanged) and sets the field's transient error, whose automatic
clear is scheduled exactly 2000 ms later (the message shows before that
bound and is empty from it on); under keystroke-only input the stored
value therefore never contains a digit. -/
theorem name_filter_digit_free (c : Char) (cs : List Char) (v : String)
    (t s : Nat) (f : String) (hc : c.isDigit = true) :
    handleNameInput (String.singleton c) =
      some "Numbers are not allowed in this field"
    ∧ nameTypeStep v c = v
    ∧ (s < t + 2000 →
        errorAt [(t, f, "Numbers are not allowed in this field")] s f =
          "Numbers are not allowed in this field")
    ∧ (t + 2000 ≤ s →
        errorAt [(t, f, "Numbers are not allowed in this field")] s f = "")
    ∧ ((nameTypeAll cs).data.all fun d => !d.isDigit) = true := by
  have hkey : handleNameInput (String.singleton c) =
      some "Numbers are not allowed in this field" := by
    unfold handleNameInput testDigit
    simp [String.singleton, hc]
  refine ⟨hkey, ?_, ?_, ?_, ?_⟩
  · unfold nameTypeStep
    rw [hkey]
  · intro hs
    simp [errorAt, runRejects, applyReject, fireDue, initFilterState, setEntry]
    omega
  · intro hs
    simp [errorAt, runRejects, applyReject, fireDue, initFilterState, setEntry]
    omega
  · exact nameType_digit_free_aux cs "" (by decide)

/-- Witness for C5: the digit keystrokes of the spec's scenario 3
("A1b2" typed into firstName stores "Ab"), with the transient error live
at 1999 ms and cleared at 2000 ms. -/
theorem name_filter_digit_free_witness :
    nameTypeAll ['A', '1', 'b', '2'] = "Ab"
    ∧ handleNameInput (String.singleton '1') =
        some "Numbers are not allowed in this field"
    ∧ nameTypeStep "A" '1' = "A"
    ∧ errorAt [(0, "firstName", "Numbers are not allowed in this field")]
        1999 "firstName" = "Numbers are not allowed in this field"
    ∧ errorAt [(0, "firstName", "Numbers are not allowed in this field")]
        2000 "firstName" = ""
    ∧ ((nameTypeAll ['A', '1', 'b', '2']).data.all fun d => !d.isDigit) = true := by
  refine ⟨by decide, ?_, ?_, ?_, ?_, ?_⟩
  · exact (name_filter_digit_free '1' [] "A" 0 1999 "firstName" (by decide)).1
  · exact (name_filter_digit_free '1' [] "A" 0 1999 "firstName" (by decide)).2.1
  · exact (name_filter_digit_free '1' [] "A" 0 1999 "firstName"
      (by decide)).2.2.1 (by decide)
  · exact (name_filter_digit_free '1' [] "A" 0 2000 "firstName"
      (by decide)).2.2.2.1 (by decide)
  · exact (name_filter_digit_free '1' ['A', '1', 'b', '2'] "A" 0 2000
      "firstName" (by decide)).2.2.2.2

/-- Counterexample to C4 as stated: two rejections 1500 ms apart on the
same field, observed 2000 ms after the first — still within 2000 ms of the
most recent rejection — find the transient error already cleared, because
the first rejection's timer was never cancelled or refreshed. -/
theorem transient_timer_counterexample :
    (2000 : Nat) < 1500 + 2000
    ∧ errorAt
        [(0, "zipCode", "Only numbers are allowed in this field"),
         (1500, "zipCode", "Only numbers are allowed in this field")]
        2000 "zipCode" = "" := by
  exact ⟨by decide, by decide⟩

/-- Claim C4 (amended): each rejection in a rapid burst re-sets the
field's message and schedules one more uncancelled 2000 ms clear, but does
not cancel earlier timers: the transient error remains set only until
2000 ms after the earliest rejection of the burst, when the first stale
timer fires and clears it. -/
theorem transient_timer_not_refreshed (t0 t1 t : Nat) (f m : String)
    (h01 : t0 ≤ t1) (hlt : t1 < t0 + 2000) :
    (t1 ≤ t → t < t0 + 2000 → errorAt [(t0, f, m), (t1, f, m)] t f = m)
    ∧ (t0 + 2000 ≤ t → errorAt [(t0, f, m), (t1, f, m)] t f = "") := by
  constructor
  · intro h1t ht
    simp [errorAt, runRejects, applyReject, fireDue, initFilterState, setEntry]
    omega
  · intro ht
    simp [errorAt, runRejects, applyReject, fireDue, initFilterState, setEntry]
    intro hall
    exact absurd (hall (t0 + 2000) (Or.inl ⟨rfl, hlt⟩)) (by omega)

/-- Witness for C4 (amended) at the counterexample's burst: the message is
still shown at 1999 ms and gone at 2000 ms, 2000 ms after the first of the
two rejections. -/
theorem transient_timer_not_refreshed_witness :
    errorAt
      [(0, "zipCode", "Only numbers are allowed in this field"),
       (1500, "zipCode", "Only numbers are allowed in this field")]
      1999 "zipCode" = "Only numbers are allowed in this field"
    ∧ errorAt
        [(0, "zipCode", "Only numbers are allowed in this field"),
         (1500, "zipCode", "Only numbers are allowed in this field")]
        2000 "zipCode" = "" := by
  constructor
  · exact (transient_timer_not_refreshed 0 1500 1999 "zipCode"
      "Only numbers are allowed in this field" (by decide) (by decide)).1
      (by decide) (by decide)
  · exact (transient_timer_not_refreshed 0 1500 2000 "zipCode"
      "Only numbers are allowed in this field" (by decide) (by decide)).2
      (by decide)

/-- Claim C9: transient-error entries are independent per field: a later
rejection on field X leaves field Y's whole trajectory unchanged, X's own
error is empty once 2000 ms have passed since X's rejection, and Y's
simultaneously-set message still shows before Y's own expiry. -/
theorem transient_per_field_frame (X Y mX mY : String) (t0 t1 s : Nat)
    (hXY : X ≠ Y) (h01 : t0 ≤ t1) (h1s : t1 ≤ s) :
    errorAt [(t0, Y, mY), (t1, X, mX)] s Y = errorAt [(t0, Y, mY)] s Y
    ∧ (t1 + 2000 ≤ s → errorAt [(t0, Y, mY), (t1, X, mX)] s X = "")
    ∧ (s < t0 + 2000 → errorAt [(t0, Y, mY), (t1, X, mX)] s Y = mY) := by
  refine ⟨?_, ?_, ?_⟩
  · simp [errorAt, runRejects, applyReject, fireDue, initFilterState,
      setEntry, hXY, Ne.symm hXY]
    by_cases hc : t0 + 2000 ≤ t1 <;> by_cases hs : t0 + 2000 ≤ s <;>
      simp_all
    · exact absurd hs (by omega)
    · rw [if_neg (by omega), if_neg (by omega), if_neg (by omega)]
  · intro hs
    simp [errorAt, runRejects, applyReject, fireDue, initFilterState,
      setEntry, hXY, Ne.symm hXY]
    intro h
    exact absurd h (by omega)
  · intro hs
    simp [errorAt, runRejects, applyReject, fireDue, initFilterState,
      setEntry, hXY, Ne.symm hXY]
    split_ifs with h1 h2 <;> simp_all <;> omega

/-- Witness for C9: simultaneous rejections on zipCode and code; code's
entry evolves as if zipCode's rejection had not happened, zipCode's error
is empty at 2500 ms, and code's message still shows at 1000 ms. -/
theorem transient_per_field_frame_witness :
    errorAt
      [(0, "code", "Only numbers are allowed in this field"),
       (0, "zipCode", "Maximum 10 digits allowed")] 2500 "code" =
      errorAt [(0, "code", "Only numbers are allowed in this field")] 2500 "code"
    ∧ errorAt
        [(0, "code", "Only numbers are allowed in this field"),
         (0, "zipCode", "Maximum 10 digits allowed")] 2500 "zipCode" = ""
    ∧ errorAt
        [(0, "code", "Only numbers are allowed in this field"),
         (0, "zipCode", "Maximum 10 digits allowed")] 1000 "code" =
        "Only numbers are allowed in this field" := by
  refine ⟨?_, ?_, ?_⟩
  · exact (transient_per_field_frame "zipCode" "code"
      "Maximum 10 digits allowed" "Only numbers are allowed in this field"
      0 0 2500 (by decide) (by decide) (by decide)).1
  · exact (transient_per_field_frame "zipCode" "code"
      "Maximum 10 digits allowed" "Only numbers are allowed in this field"
      0 0 2500 (by decide) (by decide) (by decide)).2.1 (by decide)
  · exact (transient_per_field_frame "zipCode" "code"
      "Maximum 10 digits allowed" "Only numbers are allowed in this field"
      0 0 1000 (by decide) (by decide) (by decide)).2.2 (by decide)

end Register
